import Mathlib

/-
Verification of the pseudopeople source-compatibility validator and the
progress-bar selection utility.

The validator (`validate_source_compatibility`, `_get_data_changelog_version`)
is modelled from the specification (its implementation module is not part of
the excerpt; only its tests are), with concrete message strings and version
bounds taken from the unit tests in tests/unit/test_interface.py.

The progress-bar utility is embedded directly from
src/pseudopeople/progressbar.py.
-/

deriving instance DecidableEq for Except

/-- A structured semantic version with numeric major, minor and patch
components, as produced by parsing a `MAJOR.MINOR.PATCH` token. -/
structure Version where
  major : Nat
  minor : Nat
  patch : Nat
deriving DecidableEq, Repr

/-- Numeric (component-wise lexicographic) strict order on semantic
versions: compare majors, then minors, then patches, each as numbers. -/
def Version.lt (a b : Version) : Bool :=
  a.major < b.major ||
    (a.major == b.major &&
      (a.minor < b.minor || (a.minor == b.minor && a.patch < b.patch)))

/-- Numeric value of a decimal digit character. -/
def digitVal (c : Char) : Nat := c.toNat - '0'.toNat

/-- Numeric value of a list of decimal digit characters, accumulated
left to right onto `acc` (so `valOfDigits ds 0` is the usual decimal
reading of `ds`). -/
def valOfDigits : List Char → Nat → Nat
  | [], acc => acc
  | c :: cs, acc => valOfDigits cs (acc * 10 + digitVal c)

/-- Consume leading decimal digits, accumulating their value onto `acc`;
stop at the first non-digit. Returns the accumulated value and the rest. -/
def parseDigitsAux : List Char → Nat → Nat × List Char
  | [], acc => (acc, [])
  | c :: cs, acc =>
    if c.isDigit then parseDigitsAux cs (acc * 10 + digitVal c)
    else (acc, c :: cs)

/-- Parse a nonempty run of decimal digits at the front of the input;
fails when the input does not start with a digit. -/
def parseDigits : List Char → Option (Nat × List Char)
  | [] => Option.none
  | c :: cs =>
    if c.isDigit then Option.some (parseDigitsAux cs (digitVal c))
    else Option.none

/-- Modelled from the spec: recognize a changelog entry heading of the form
`**MAJOR.MINOR.PATCH - freeform date**` at the front of the input, returning
the structured version when the input starts with `**`, three dot-separated
numeric components and then `" -"`. -/
def parseVersionHeading (cs : List Char) : Option Version :=
  match cs with
  | '*' :: '*' :: rest =>
    match parseDigits rest with
    | Option.some (a, rest1) =>
      match rest1 with
      | '.' :: rest2 =>
        match parseDigits rest2 with
        | Option.some (b, rest3) =>
          match rest3 with
          | '.' :: rest4 =>
            match parseDigits rest4 with
            | Option.some (c, rest5) =>
              match rest5 with
              | ' ' :: '-' :: _ => Option.some ⟨a, b, c⟩
              | _ => Option.none
            | Option.none => Option.none
          | _ => Option.none
        | Option.none => Option.none
      | _ => Option.none
    | Option.none => Option.none
  | _ => Option.none

/-- Modelled from the spec: scan the changelog text for its first (topmost)
version-bearing heading and return that heading's version, if any. -/
def findFirstVersion : List Char → Option Version
  | [] => Option.none
  | c :: cs =>
    match parseVersionHeading (c :: cs) with
    | Option.some v => Option.some v
    | Option.none => findFirstVersion cs

/-- Whether a character list does not start with a decimal digit (so a
digit run ending right before it is maximal). -/
def headNotDigit : List Char → Bool
  | [] => true
  | c :: _ => !c.isDigit

/-- The two error classes surfaced by the validator: a
`FileNotFoundError`-class error and a `DataSourceError`, each carrying a
human-readable message. -/
inductive VError where
  | fileNotFound (msg : String)
  | dataSourceError (msg : String)
deriving DecidableEq, Repr

/-- A dataset descriptor: the name of the dataset, which is also the name of
the subdirectory where its files are expected to reside under the root. -/
structure Dataset where
  name : String
deriving DecidableEq, Repr

/-- The filesystem view at a source root path: the path itself, the names of
the subdirectories present under it, and the content of the changelog file
at the root when one exists. -/
structure SourceRoot where
  path : String
  datasetDirs : List String
  changelog : Option String
deriving DecidableEq, Repr

/-- Minimum compatible data version (inclusive), per the compatible range
hardcoded for this library release; the unit tests pin it at 1.4.2. -/
def min_compatible_version : Version := ⟨1, 4, 2⟩

/-- Maximum compatible data version (exclusive), per the compatible range
hardcoded for this library release; the unit tests show 1.4.3 as already
incompatible ("newer"). -/
def max_compatible_version : Version := ⟨1, 4, 3⟩

/-- Message used when no changelog file exists at the root (taken from the
unit tests). -/
def older_version_message : String :=
  "An older version of simulated population data has been provided."

/-- Message used when the changelog version is below the compatible floor
(taken from the unit tests). -/
def corrupted_message : String :=
  "The simulated population data has been corrupted."

/-- Message used when the changelog version is at or above the compatible
ceiling (taken from the unit tests). -/
def newer_version_message : String :=
  "A newer version of simulated population data has been provided."

/-- Modelled from the spec: the changelog version extractor
`_get_data_changelog_version` (its implementation module is not in the
excerpt). Given the changelog file content when the file exists, parse the
first version-bearing heading and return it as a structured version; if the
file does not exist propagate a file-not-found condition, and if no heading
matches the pattern signal a `DataSourceError`. -/
def _get_data_changelog_version (file : Option String) : Except VError Version :=
  match file with
  | Option.none =>
    Except.error (VError.fileNotFound "changelog file not found")
  | Option.some content =>
    match findFirstVersion content.data with
    | Option.some v => Except.ok v
    | Option.none =>
      Except.error
        (VError.dataSourceError "could not parse a version from the changelog")

/-- Modelled from the spec: the source compatibility validator
`validate_source_compatibility` (its implementation module is not in the
excerpt). Check that the dataset's subdirectory exists under the root
(else a `FileNotFoundError`-class error naming the subdirectory and the
root), that a changelog exists at the root (else a `DataSourceError` with
the "older version" message), and that the extracted version lies in the
compatible range `[min_compatible_version, max_compatible_version)` (below
the floor is "corrupted", at or above the ceiling is "newer"). Message
strings and bounds are the ones pinned by the unit tests. -/
def validate_source_compatibility (root : SourceRoot) (dataset : Dataset) :
    Except VError Unit :=
  if dataset.name ∈ root.datasetDirs then
    match root.changelog with
    | Option.some content =>
      match _get_data_changelog_version (Option.some content) with
      | Except.error e => Except.error e
      | Except.ok version =>
        if Version.lt version min_compatible_version then
          Except.error (VError.dataSourceError corrupted_message)
        else if Version.lt version max_compatible_version then
          Except.ok ()
        else
          Except.error (VError.dataSourceError newer_version_message)
    | Option.none =>
      Except.error (VError.dataSourceError older_version_message)
  else
    Except.error
      (VError.fileNotFound
        ("Could not find \x27" ++ dataset.name ++ "\x27 in \x27"
          ++ root.path ++ "\x27"))

/-- Modelled from the spec: the validator performs a purely
read-and-compare check, so running it over a filesystem state returns the
outcome together with the filesystem state, which it leaves untouched. -/
def validate_source_compatibility_run (root : SourceRoot) (dataset : Dataset) :
    Except VError Unit × SourceRoot :=
  (validate_source_compatibility root dataset, root)

/-- The census dataset descriptor used throughout the unit tests; its
subdirectory name is pinned by the tests. -/
def census : Dataset := ⟨"decennial_census"⟩

/-- The changelog written by the `simulated_data_changelog_path` test
fixture: a 1.4.2 entry on top of a 1.4.1 entry. -/
def test_changelog : String :=
  "**1.4.2 - some other date**\n\n - Did some other things\n\n"
    ++ "**1.4.1 - some date**\n\n - Did some things\n"

/-- The IPython runtime environment as probed by `_is_notebook`: importing
IPython may fail, `get_ipython()` may return `None`, or it returns a shell
object whose class name is inspected. -/
inductive IPythonEnv where
  | unavailable
  | noShell
  | shell (className : String)
deriving DecidableEq, Repr

/-- Embeds `_is_notebook` from src/pseudopeople/progressbar.py: an
ImportError/NameError or an absent shell yields `false`; a
`ZMQInteractiveShell` yields `true`; a `TerminalInteractiveShell` or any
unknown shell class yields `false`. -/
def _is_notebook (env : IPythonEnv) : Bool :=
  match env with
  | IPythonEnv.unavailable => false
  | IPythonEnv.noShell => false
  | IPythonEnv.shell shell_class =>
    if shell_class = "ZMQInteractiveShell" then true
    else if shell_class = "TerminalInteractiveShell" then false
    else false

/-- The two tqdm implementations `_get_tqdm_class` can select. -/
inductive TqdmClass where
  | notebook
  | standard
deriving DecidableEq, Repr

/-- Embeds `_get_tqdm_class` from src/pseudopeople/progressbar.py:
`tqdm.notebook.tqdm` in a Jupyter environment, plain `tqdm.tqdm`
otherwise. -/
def _get_tqdm_class (env : IPythonEnv) : TqdmClass :=
  if _is_notebook env then TqdmClass.notebook else TqdmClass.standard

/-- A Python value as it appears among tqdm keyword arguments. -/
inductive PyVal where
  | pynone
  | pystr (s : String)
  | pyint (i : Int)
  | pybool (b : Bool)
deriving DecidableEq, Repr

/-- An optional string as a Python value (`None` or a `str`). -/
def optStrVal : Option String → PyVal
  | Option.none => PyVal.pynone
  | Option.some s => PyVal.pystr s

/-- The observable effect of a `progress_bar` call: which tqdm class was
selected and the keyword arguments passed to it, in insertion order. -/
structure TqdmCall where
  cls : TqdmClass
  kwargs : List (String × PyVal)
deriving DecidableEq, Repr

/-- Embeds `progress_bar` from src/pseudopeople/progressbar.py: select the
tqdm class for the environment, build the kwargs dict with `desc`, `unit`,
`leave` and `disable`, add `position` only when it was supplied and the
environment is not a notebook, and add `total` only when it was
supplied. -/
def progress_bar (env : IPythonEnv) (desc : Option String) (unitName : String)
    (leave : Bool) (position : Option Int) (total : Option Int)
    (disable : Bool) : TqdmCall :=
  let tqdm_class := _get_tqdm_class env
  let kwargs : List (String × PyVal) :=
    [("desc", optStrVal desc), ("unit", PyVal.pystr unitName),
      ("leave", PyVal.pybool leave), ("disable", PyVal.pybool disable)]
  let kwargs :=
    match position with
    | Option.some p =>
      if _is_notebook env then kwargs
      else kwargs ++ [("position", PyVal.pyint p)]
    | Option.none => kwargs
  let kwargs :=
    match total with
    | Option.some t => kwargs ++ [("total", PyVal.pyint t)]
    | Option.none => kwargs
  ⟨tqdm_class, kwargs⟩

/-- The keys of the keyword arguments of a tqdm call, in order. -/
def kwargKeys (c : TqdmCall) : List String := c.kwargs.map Prod.fst

/-- `parseDigitsAux` consumes exactly a maximal digit run: on a run of
digits followed by a non-digit boundary it accumulates the run's value and
leaves the rest untouched. -/
theorem parseDigitsAux_append (ds : List Char) :
    ∀ rest acc, (∀ c ∈ ds, c.isDigit = true) → headNotDigit rest = true →
      parseDigitsAux (ds ++ rest) acc = (valOfDigits ds acc, rest) := by
  induction ds with
  | nil =>
    intro rest acc _ hrest
    cases rest with
    | nil => rfl
    | cons c cs =>
      simp only [headNotDigit, Bool.not_eq_true'] at hrest
      simp [parseDigitsAux, valOfDigits, hrest]
  | cons d ds ih =>
    intro rest acc hds hrest
    have hd : d.isDigit = true := hds d (List.mem_cons_self d ds)
    simp only [List.cons_append, parseDigitsAux, hd, if_true, valOfDigits]
    exact ih rest (acc * 10 + digitVal d)
      (fun c hc => hds c (List.mem_cons_of_mem d hc)) hrest

/-- `parseDigits` on a nonempty digit run followed by a non-digit boundary
returns the run's decimal value and the rest. -/
theorem parseDigits_append (ds rest : List Char) (hne : ds ≠ [])
    (hds : ∀ c ∈ ds, c.isDigit = true) (hrest : headNotDigit rest = true) :
    parseDigits (ds ++ rest) = Option.some (valOfDigits ds 0, rest) := by
  cases ds with
  | nil => exact absurd rfl hne
  | cons d ds =>
    have hd : d.isDigit = true := hds d (List.mem_cons_self d ds)
    simp only [List.cons_append, parseDigits, hd, if_true]
    rw [parseDigitsAux_append ds rest (digitVal d)
      (fun c hc => hds c (List.mem_cons_of_mem d hc)) hrest]
    simp [valOfDigits]

/-- `parseVersionHeading` accepts any well-formed heading
`**MAJOR.MINOR.PATCH - ...` and returns the three decimal values. -/
theorem parseVersionHeading_heading (ds1 ds2 ds3 tail : List Char)
    (h1 : ds1 ≠ []) (hd1 : ∀ c ∈ ds1, c.isDigit = true)
    (h2 : ds2 ≠ []) (hd2 : ∀ c ∈ ds2, c.isDigit = true)
    (h3 : ds3 ≠ []) (hd3 : ∀ c ∈ ds3, c.isDigit = true) :
    parseVersionHeading
        ('*' :: '*' :: (ds1 ++ '.' :: (ds2 ++ '.' :: (ds3 ++ ' ' :: '-' :: tail))))
      = Option.some ⟨valOfDigits ds1 0, valOfDigits ds2 0, valOfDigits ds3 0⟩ := by
  have e1 := parseDigits_append ds1 ('.' :: (ds2 ++ '.' :: (ds3 ++ ' ' :: '-' :: tail)))
    h1 hd1 rfl
  have e2 := parseDigits_append ds2 ('.' :: (ds3 ++ ' ' :: '-' :: tail)) h2 hd2 rfl
  have e3 := parseDigits_append ds3 (' ' :: '-' :: tail) h3 hd3 rfl
  simp only [parseVersionHeading, e1, e2, e3]

/-- `findFirstVersion` on text whose topmost heading is well formed returns
that heading's version. -/
theorem findFirstVersion_heading (ds1 ds2 ds3 tail : List Char)
    (h1 : ds1 ≠ []) (hd1 : ∀ c ∈ ds1, c.isDigit = true)
    (h2 : ds2 ≠ []) (hd2 : ∀ c ∈ ds2, c.isDigit = true)
    (h3 : ds3 ≠ []) (hd3 : ∀ c ∈ ds3, c.isDigit = true) :
    findFirstVersion
        ('*' :: '*' :: (ds1 ++ '.' :: (ds2 ++ '.' :: (ds3 ++ ' ' :: '-' :: tail))))
      = Option.some ⟨valOfDigits ds1 0, valOfDigits ds2 0, valOfDigits ds3 0⟩ := by
  simp only [findFirstVersion,
    parseVersionHeading_heading ds1 ds2 ds3 tail h1 hd1 h2 hd2 h3 hd3]

/-- The numeric order on versions is transitive. -/
theorem Version.lt_trans {a b c : Version} (hab : Version.lt a b = true)
    (hbc : Version.lt b c = true) : Version.lt a c = true := by
  simp only [Version.lt, Bool.or_eq_true, Bool.and_eq_true, decide_eq_true_eq,
    beq_iff_eq] at *
  omega

/-- A source root laid out as the passing test fixture: the census
subdirectory is present and the fixture changelog sits at the root. -/
def good_root : SourceRoot :=
  ⟨"/tmp/data", ["decennial_census"], Option.some test_changelog⟩

/-- C1: for every root containing the dataset's subdirectory and a changelog
whose extracted version lies within the library's compatible range (the
minimum bound being inclusive), `validate_source_compatibility` returns
normally, raising no error. -/
theorem validate_passes_in_range (root : SourceRoot) (dataset : Dataset)
    (content : String) (v : Version)
    (hdir : dataset.name ∈ root.datasetDirs)
    (hch : root.changelog = Option.some content)
    (hv : findFirstVersion content.data = Option.some v)
    (hlo : Version.lt v min_compatible_version = false)
    (hhi : Version.lt v max_compatible_version = true) :
    validate_source_compatibility root dataset = Except.ok () := by
  simp [validate_source_compatibility, _get_data_changelog_version, hdir, hch,
    hv, hlo, hhi]

/-- C1 witness: on the fixture root, whose changelog's top entry is 1.4.2,
the extracted version equals the inclusive minimum and validation passes. -/
theorem validate_passes_in_range_witness :
    census.name ∈ good_root.datasetDirs
    ∧ good_root.changelog = Option.some test_changelog
    ∧ findFirstVersion test_changelog.data = Option.some ⟨1, 4, 2⟩
    ∧ Version.lt ⟨1, 4, 2⟩ min_compatible_version = false
    ∧ Version.lt ⟨1, 4, 2⟩ max_compatible_version = true
    ∧ validate_source_compatibility good_root census = Except.ok () :=
  ⟨by decide, rfl, by decide, by decide, by decide,
    validate_passes_in_range good_root census test_changelog ⟨1, 4, 2⟩
      (by decide) rfl (by decide) (by decide) (by decide)⟩

/-- C2: for every root (with the dataset subdirectory and a changelog
present) whose extracted changelog version is strictly below the minimum
compatible version, `validate_source_compatibility` raises a
`DataSourceError` carrying the "corrupted" message, which differs from the
"older version" and "newer version" messages. -/
theorem validate_below_floor_corrupted (root : SourceRoot) (dataset : Dataset)
    (content : String) (v : Version)
    (hdir : dataset.name ∈ root.datasetDirs)
    (hch : root.changelog = Option.some content)
    (hv : findFirstVersion content.data = Option.some v)
    (hlt : Version.lt v min_compatible_version = true) :
    validate_source_compatibility root dataset
        = Except.error (VError.dataSourceError corrupted_message)
    ∧ corrupted_message ≠ older_version_message
    ∧ corrupted_message ≠ newer_version_message := by
  refine ⟨?_, by decide, by decide⟩
  simp [validate_source_compatibility, _get_data_changelog_version, hdir, hch,
    hv, hlt]

/-- A source root whose changelog's top entry is 1.4.1, one patch below the
compatible floor. -/
def below_floor_root : SourceRoot :=
  ⟨"/tmp/data", ["decennial_census"], Option.some "**1.4.1 - some date**\n"⟩

/-- C2 witness: with a 1.4.1 changelog (one patch below the floor),
validation fails with the "corrupted" message. -/
theorem validate_below_floor_corrupted_witness :
    census.name ∈ below_floor_root.datasetDirs
    ∧ findFirstVersion ("**1.4.1 - some date**\n").data = Option.some ⟨1, 4, 1⟩
    ∧ Version.lt ⟨1, 4, 1⟩ min_compatible_version = true
    ∧ (validate_source_compatibility below_floor_root census
          = Except.error (VError.dataSourceError corrupted_message)
        ∧ corrupted_message ≠ older_version_message
        ∧ corrupted_message ≠ newer_version_message) :=
  ⟨by decide, by decide, by decide,
    validate_below_floor_corrupted below_floor_root census
      "**1.4.1 - some date**\n" ⟨1, 4, 1⟩ (by decide) rfl (by decide) (by decide)⟩

/-- C3: for every root (with the dataset subdirectory and a changelog
present) whose extracted changelog version is at or above the exclusive
maximum compatible bound, `validate_source_compatibility` raises a
`DataSourceError` carrying the "newer version provided, please upgrade"
message. -/
theorem validate_at_or_above_ceiling_newer (root : SourceRoot)
    (dataset : Dataset) (content : String) (v : Version)
    (hdir : dataset.name ∈ root.datasetDirs)
    (hch : root.changelog = Option.some content)
    (hv : findFirstVersion content.data = Option.some v)
    (hge : Version.lt v max_compatible_version = false) :
    validate_source_compatibility root dataset
      = Except.error (VError.dataSourceError newer_version_message) := by
  have hlo : Version.lt v min_compatible_version = false := by
    cases h : Version.lt v min_compatible_version with
    | false => rfl
    | true =>
      have habove : Version.lt v max_compatible_version = true :=
        Version.lt_trans h (by decide)
      rw [habove] at hge
      exact absurd hge (by simp)
  simp [validate_source_compatibility, _get_data_changelog_version, hdir, hch,
    hv, hlo, hge]

/-- A source root whose changelog's top entry is 1.4.3, equal to the
exclusive ceiling. -/
def at_ceiling_root : SourceRoot :=
  ⟨"/tmp/data", ["decennial_census"], Option.some "**1.4.3 - some date**\n"⟩

/-- C3 witness: with a 1.4.3 changelog (exactly the ceiling), validation
fails with the "newer version" message, so equality to the ceiling is
incompatible. -/
theorem validate_at_or_above_ceiling_newer_witness :
    census.name ∈ at_ceiling_root.datasetDirs
    ∧ findFirstVersion ("**1.4.3 - some date**\n").data = Option.some ⟨1, 4, 3⟩
    ∧ Version.lt ⟨1, 4, 3⟩ max_compatible_version = false
    ∧ validate_source_compatibility at_ceiling_root census
        = Except.error (VError.dataSourceError newer_version_message) :=
  ⟨by decide, by decide, by decide,
    validate_at_or_above_ceiling_newer at_ceiling_root census
      "**1.4.3 - some date**\n" ⟨1, 4, 3⟩ (by decide) rfl (by decide) (by decide)⟩

/-- C4: for every root containing the dataset's subdirectory but no
changelog at the root, `validate_source_compatibility` raises a
`DataSourceError` with the "older version" message (absence is treated as
too old), not a file-not-found error. -/
theorem validate_no_changelog_older (root : SourceRoot) (dataset : Dataset)
    (hdir : dataset.name ∈ root.datasetDirs)
    (hch : root.changelog = Option.none) :
    validate_source_compatibility root dataset
      = Except.error (VError.dataSourceError older_version_message) := by
  simp [validate_source_compatibility, hdir, hch]

/-- A source root with the census subdirectory but no changelog file. -/
def no_changelog_root : SourceRoot :=
  ⟨"/tmp/no_changelog", ["decennial_census"], Option.none⟩

/-- C4 witness: with the census subdirectory present and no changelog,
validation fails with the "older version" `DataSourceError`. -/
theorem validate_no_changelog_older_witness :
    census.name ∈ no_changelog_root.datasetDirs
    ∧ no_changelog_root.changelog = Option.none
    ∧ validate_source_compatibility no_changelog_root census
        = Except.error (VError.dataSourceError older_version_message) :=
  ⟨by decide, rfl,
    validate_no_changelog_older no_changelog_root census (by decide) rfl⟩

/-- C5: for every root that does not contain the dataset's expected
subdirectory, `validate_source_compatibility` raises a
`FileNotFoundError`-class error whose message contains both the missing
dataset subdirectory name and the root path that was searched. -/
theorem validate_missing_dir_not_found (root : SourceRoot) (dataset : Dataset)
    (hdir : dataset.name ∉ root.datasetDirs) :
    validate_source_compatibility root dataset
        = Except.error (VError.fileNotFound
            ("Could not find \x27" ++ dataset.name ++ "\x27 in \x27"
              ++ root.path ++ "\x27"))
    ∧ List.IsInfix dataset.name.data
        ("Could not find \x27" ++ dataset.name ++ "\x27 in \x27"
          ++ root.path ++ "\x27").data
    ∧ List.IsInfix root.path.data
        ("Could not find \x27" ++ dataset.name ++ "\x27 in \x27"
          ++ root.path ++ "\x27").data := by
  refine ⟨by simp [validate_source_compatibility, hdir], ?_, ?_⟩
  · exact ⟨"Could not find \x27".data,
      ("\x27 in \x27" ++ root.path ++ "\x27").data,
      by simp [String.data_append]⟩
  · exact ⟨("Could not find \x27" ++ dataset.name ++ "\x27 in \x27").data,
      "\x27".data, by simp [String.data_append]⟩

/-- A root that lacks the census subdirectory entirely. -/
def wrong_directory_root : SourceRoot :=
  ⟨"/tmp/wrong_directory", [], Option.none⟩

/-- C5 witness: on a root without the census subdirectory, validation fails
with a not-found error whose message names the subdirectory and the root
path. -/
theorem validate_missing_dir_not_found_witness :
    census.name ∉ wrong_directory_root.datasetDirs
    ∧ (validate_source_compatibility wrong_directory_root census
          = Except.error (VError.fileNotFound
              ("Could not find \x27" ++ census.name ++ "\x27 in \x27"
                ++ wrong_directory_root.path ++ "\x27"))
        ∧ List.IsInfix census.name.data
            ("Could not find \x27" ++ census.name ++ "\x27 in \x27"
              ++ wrong_directory_root.path ++ "\x27").data
        ∧ List.IsInfix wrong_directory_root.path.data
            ("Could not find \x27" ++ census.name ++ "\x27 in \x27"
              ++ wrong_directory_root.path ++ "\x27").data) :=
  ⟨by decide,
    validate_missing_dir_not_found wrong_directory_root census (by decide)⟩

/-- C6: for every changelog file whose topmost entry heading matches
`**MAJOR.MINOR.PATCH - freeform date**`, `_get_data_changelog_version`
returns exactly that first heading's version token parsed as a structured
version, whatever entries follow. -/
theorem get_changelog_version_first_heading (ds1 ds2 ds3 tail : List Char)
    (content : String)
    (h1 : ds1 ≠ []) (hd1 : ∀ c ∈ ds1, c.isDigit = true)
    (h2 : ds2 ≠ []) (hd2 : ∀ c ∈ ds2, c.isDigit = true)
    (h3 : ds3 ≠ []) (hd3 : ∀ c ∈ ds3, c.isDigit = true)
    (hc : content.data
      = '*' :: '*' :: (ds1 ++ '.' :: (ds2 ++ '.' :: (ds3 ++ ' ' :: '-' :: tail)))) :
    _get_data_changelog_version (Option.some content)
      = Except.ok ⟨valOfDigits ds1 0, valOfDigits ds2 0, valOfDigits ds3 0⟩ := by
  simp only [_get_data_changelog_version, hc,
    findFirstVersion_heading ds1 ds2 ds3 tail h1 hd1 h2 hd2 h3 hd3]

/-- The characters of the fixture changelog that follow its topmost version
token and the `" -"` separator. -/
def c6_tail : List Char :=
  (" some other date**\n\n - Did some other things\n\n"
    ++ "**1.4.1 - some date**\n\n - Did some things\n").data

/-- C6 witness: the fixture changelog, whose top entry is 1.4.2 above an
older 1.4.1 entry, yields exactly version 1.4.2, not 1.4.1. -/
theorem get_changelog_version_first_heading_witness :
    test_changelog.data
        = '*' :: '*' :: (['1'] ++ '.' :: (['4'] ++ '.' :: (['2'] ++ ' ' :: '-' :: c6_tail)))
    ∧ _get_data_changelog_version (Option.some test_changelog)
        = Except.ok ⟨1, 4, 2⟩ :=
  ⟨by decide,
    get_changelog_version_first_heading ['1'] ['4'] ['2'] c6_tail test_changelog
      (by decide) (by decide) (by decide) (by decide) (by decide) (by decide)
      (by decide)⟩

/-- C7: for every changelog path that does not exist, or whose content has
no heading matching the version pattern, `_get_data_changelog_version`
signals an error and never returns a version to the caller. -/
theorem get_changelog_version_error (file : Option String)
    (h : file = Option.none
      ∨ ∃ content, file = Option.some content
          ∧ findFirstVersion content.data = Option.none) :
    ∃ e, _get_data_changelog_version file = Except.error e := by
  rcases h with h | ⟨content, hc, hp⟩
  · exact ⟨VError.fileNotFound "changelog file not found",
      by simp [h, _get_data_changelog_version]⟩
  · exact ⟨VError.dataSourceError "could not parse a version from the changelog",
      by simp [hc, _get_data_changelog_version, hp]⟩

/-- C7 witness: on a missing changelog file, extraction signals an error. -/
theorem get_changelog_version_error_witness :
    ((Option.none : Option String) = Option.none
      ∨ ∃ content, (Option.none : Option String) = Option.some content
          ∧ findFirstVersion content.data = Option.none)
    ∧ ∃ e, _get_data_changelog_version Option.none = Except.error e :=
  ⟨Or.inl rfl, get_changelog_version_error Option.none (Or.inl rfl)⟩

/-- C8: the validator is deterministic and side-effect free: on one fixed
filesystem state, two invocations with equal inputs produce the identical
outcome, and an invocation returns the filesystem state unchanged. -/
theorem validate_deterministic_and_pure (r1 r2 : SourceRoot)
    (d1 d2 : Dataset) (hr : r1 = r2) (hd : d1 = d2) :
    validate_source_compatibility_run r1 d1
        = validate_source_compatibility_run r2 d2
    ∧ (validate_source_compatibility_run r1 d1).2 = r1 := by
  subst hr
  subst hd
  exact ⟨rfl, rfl⟩

/-- C8 witness: two runs on the fixture root and census dataset coincide and
leave the filesystem state untouched. -/
theorem validate_deterministic_and_pure_witness :
    good_root = good_root ∧ census = census
    ∧ (validate_source_compatibility_run good_root census
          = validate_source_compatibility_run good_root census
        ∧ (validate_source_compatibility_run good_root census).2 = good_root) :=
  ⟨rfl, rfl, validate_deterministic_and_pure good_root good_root census census
    rfl rfl⟩

/-- A source root whose changelog's top entry is 1.4.12: lexicographically
below "1.4.2" as a string, numerically above the ceiling. -/
def lex_trap_root : SourceRoot :=
  ⟨"/tmp/data", ["decennial_census"], Option.some "**1.4.12 - some date**\n"⟩

/-- C9: version ordering is numeric per component, not lexicographic on the
version string: the character sequence of "1.4.12" is lexicographically
smaller than that of "1.4.2", yet 1.4.12 is numerically at or above the
ceiling and the validator classifies it as "newer version provided", not as
below-floor "corrupted". -/
theorem version_order_numeric_not_lexicographic :
    ("1.4.12").data < ("1.4.2").data
    ∧ Version.lt ⟨1, 4, 12⟩ ⟨1, 4, 2⟩ = false
    ∧ Version.lt ⟨1, 4, 12⟩ max_compatible_version = false
    ∧ findFirstVersion ("**1.4.12 - some date**\n").data = Option.some ⟨1, 4, 12⟩
    ∧ validate_source_compatibility lex_trap_root census
        = Except.error (VError.dataSourceError newer_version_message) := by
  refine ⟨?_, by decide, by decide, by decide, by decide⟩
  decide

/-- C10: every `progress_bar` call passes `desc`, `unit`, `leave` and
`disable` to the selected tqdm class; it passes `total` exactly when the
caller supplied a total; and it passes `position` exactly when the caller
supplied a position and the environment is not a Jupyter notebook — in a
notebook `position` is never forwarded. -/
theorem progress_bar_kwargs_spec (env : IPythonEnv) (desc : Option String)
    (unitName : String) (leave : Bool) (position : Option Int)
    (total : Option Int) (disable : Bool) :
    ("desc" ∈ kwargKeys (progress_bar env desc unitName leave position total disable)
      ∧ "unit" ∈ kwargKeys (progress_bar env desc unitName leave position total disable)
      ∧ "leave" ∈ kwargKeys (progress_bar env desc unitName leave position total disable)
      ∧ "disable" ∈ kwargKeys (progress_bar env desc unitName leave position total disable))
    ∧ ("total" ∈ kwargKeys (progress_bar env desc unitName leave position total disable)
        ↔ total ≠ Option.none)
    ∧ ("position" ∈ kwargKeys (progress_bar env desc unitName leave position total disable)
        ↔ position ≠ Option.none ∧ _is_notebook env = false) := by
  cases position <;> cases total <;> cases hnb : _is_notebook env <;>
    simp [kwargKeys, progress_bar, hnb]
